import Mathlib

/-!
Shallow embedding of the converged EloqDB server entry point
(the multi-engine lifecycle coordinator): the globals, the
CleanupComponents teardown routine, the SignalHandler, and main.

Machine state is the tuple of process-wide globals; nullable pointers and
unique_ptr ownership are modelled as booleans (true = non-null / owned).
Side effects (substrate shutdown, service stop, thread join, ...) are
recorded as an event trace; a run of main yields a trace, an exit code and
the final global state.  The ELOQ_MODULE_ELOQKV / ELOQ_MODULE_ELOQSQL
preprocessor conditions are the kvModule / sqlModule boolean parameters.
-/

namespace EloqDB

/-- Engine identities: txservice::TableEngine. -/
inductive TableEngine where
  | EloqSql
  | EloqKv
  | EloqDoc
deriving DecidableEq, Fintype

/-- struct InitState: state tracking for cleanup.  The field
eloqkv_service_ptr models whether the raw pointer tracked before release
is non-null. -/
structure InitState where
  data_substrate_init : Bool := false
  eloqkv_init : Bool := false
  eloqsql_thread_started : Bool := false
  eloqkv_service_ptr : Bool := false
deriving DecidableEq, Fintype

/-- The process-wide globals of the coordinator.  g_eloqkv_service and
g_eloqkv_server are true while the respective unique_ptr is non-null
(the coordinator owns the object); g_eloqsql_thread_joinable models
g_eloqsql_thread.joinable(). -/
structure GlobalState where
  g_init_state : InitState := {}
  g_eloqkv_service : Bool := false
  g_eloqkv_server : Bool := false
  g_eloqsql_thread_joinable : Bool := false
  g_shutdown_requested : Bool := false
deriving DecidableEq, Fintype

/-- Observable effects of the coordinator, in program order. -/
inductive Event where
  | substrateInitEv (cfg : String) (ok : Bool)
  | enableEngine (k : TableEngine)
  | spawnEloqSqlThread
  | kvServiceCtor (cfg : String)
  | kvServiceInitEv (ok : Bool)
  | waitForEnginesRegistered (timeoutMs : Nat) (ok : Bool)
  | substrateStart (ok : Bool)
  | kvServiceSecondStart (ok : Bool)
  | kvServiceRelease
  | brpcServerStart (ok : Bool)
  | runUntilAskedToQuit
  | cleanupEntered
  | substrateShutdown
  | kvServiceStop
  | destroyKvService
  | destroyKvServer
  | shutdownMysqld
  | joinEloqSqlThread
  | shutdownGoogleLogging
deriving DecidableEq

/-- void CleanupComponents(): stage order DataSubstrate, then EloqKV,
then EloqSQL, exactly as the source; each branch mirrors one source
if-block, including the unconditional pointer resets of the EloqKV
stage (a unique_ptr reset destroys the object only when it is still
owned, recorded as a destroy event). -/
def CleanupComponents (kvModule sqlModule : Bool) (g : GlobalState) :
    List Event × GlobalState :=
  let (evs1, g) :=
    if g.g_init_state.data_substrate_init then
      ([Event.substrateShutdown],
        { g with g_init_state.data_substrate_init := false })
    else ([], g)
  let (evs2, g) :=
    if kvModule then
      let (a, g) :=
        if g.g_init_state.eloqkv_init && g.g_init_state.eloqkv_service_ptr then
          ([Event.kvServiceStop], { g with g_init_state.eloqkv_init := false })
        else ([], g)
      let (b, g) :=
        if g.g_eloqkv_service then
          ([Event.destroyKvService], { g with g_eloqkv_service := false })
        else ([], g)
      let (c, g) :=
        if g.g_eloqkv_server then
          ([Event.destroyKvServer], { g with g_eloqkv_server := false })
        else ([], g)
      (a ++ b ++ c,
        { g with g_init_state.eloqkv_service_ptr := false,
                 g_init_state.eloqkv_init := false })
    else ([], g)
  let (evs3, g) :=
    if sqlModule && g.g_init_state.eloqsql_thread_started then
      let (j, g) :=
        if g.g_eloqsql_thread_joinable then
          ([Event.joinEloqSqlThread], { g with g_eloqsql_thread_joinable := false })
        else ([], g)
      (Event.shutdownMysqld :: j,
        { g with g_init_state.eloqsql_thread_started := false })
    else ([], g)
  (evs1 ++ evs2 ++ evs3, g)

/-- void SignalHandler(int): compare-and-exchange g_shutdown_requested
from false to true; a losing invocation returns immediately, the winner
runs CleanupComponents. -/
def SignalHandler (kvModule sqlModule : Bool) (sig : Int) (g : GlobalState) :
    List Event × GlobalState :=
  if g.g_shutdown_requested then ([], g)
  else
    let g := { g with g_shutdown_requested := true }
    let r := CleanupComponents kvModule sqlModule g
    (r.1, r.2)

end EloqDB

namespace EloqDB

/-- Command-line flags read by main. -/
structure Flags where
  config : String := ""
  eloqkv_config : String := ""
  eloqsql_config : String := ""
deriving DecidableEq

/-- Results of the external collaborator calls made by main, fixed up
front: each field is what the corresponding call would return. -/
structure Oracle where
  substrateInitOk : Bool := true
  kvInitOk : Bool := true
  registeredOk : Bool := true
  substrateStartOk : Bool := true
  kvSecondStartOk : Bool := true
  brpcStartOk : Bool := true
deriving DecidableEq, Fintype

/-- Outcome of a run of main: the event trace, the process exit status,
and the final global state. -/
structure RunResult where
  trace : List Event
  exitCode : Int
  final : GlobalState
deriving DecidableEq

/-- The EloqKV configuration path computed in main:
FLAGS_eloqkv_config.empty() ? FLAGS_config : FLAGS_eloqkv_config. -/
def effectiveKvConfig (config eloqkv_config : String) : String :=
  if eloqkv_config = "" then config else eloqkv_config

/-- The shared cleanup label of main: run CleanupComponents, then
google::ShutdownGoogleLogging, and return return_code. -/
def finishRun (kvModule sqlModule : Bool) (evs : List Event) (rc : Int)
    (g : GlobalState) : RunResult :=
  let r := CleanupComponents kvModule sqlModule g
  { trace := evs ++ Event.cleanupEntered :: r.1 ++ [Event.shutdownGoogleLogging],
    exitCode := rc, final := r.2 }

/-- main from the registration wait onward (steps 3 to 5 of the source):
wait for enabled engines with the literal 600000 ms timeout, start the
substrate, run the EloqKV second phase, release the service into the
server options, start the brpc server, block until asked to quit, then
fall into the shared cleanup label.  Every failure sets return_code = -1
and jumps to cleanup. -/
def afterEngineLaunch (kvModule sqlModule : Bool) (evs : List Event)
    (g : GlobalState) (o : Oracle) : RunResult :=
  let evs := evs ++ [Event.waitForEnginesRegistered 600000 o.registeredOk]
  if !o.registeredOk then finishRun kvModule sqlModule evs (-1) g
  else
    let evs := evs ++ [Event.substrateStart o.substrateStartOk]
    if !o.substrateStartOk then finishRun kvModule sqlModule evs (-1) g
    else
      if kvModule then
        let evs := evs ++ [Event.kvServiceSecondStart o.kvSecondStartOk]
        if !o.kvSecondStartOk then finishRun kvModule sqlModule evs (-1) g
        else
          let g := { g with g_init_state.eloqkv_service_ptr := true }
          let g := { g with g_eloqkv_service := false }
          let evs := evs ++ [Event.kvServiceRelease,
                             Event.brpcServerStart o.brpcStartOk]
          if !o.brpcStartOk then finishRun kvModule sqlModule evs (-1) g
          else
            let evs :=
              if g.g_eloqkv_server then evs ++ [Event.runUntilAskedToQuit]
              else evs
            finishRun kvModule sqlModule evs 0 g
      else
        finishRun kvModule sqlModule evs 0 g

/-- int main(argc, argv): substrate init (inline return -1 on failure,
without the shared cleanup label), the EloqSQL block (enable engine,
spawn the mysqld_main thread), the EloqKV block (enable engine,
construct the service with the effective config, first-phase Init with
goto cleanup on failure), then the rest of the run. -/
def mainRun (kvModule sqlModule : Bool) (fl : Flags) (o : Oracle) : RunResult :=
  let g : GlobalState := {}
  if !o.substrateInitOk then
    { trace := [Event.substrateInitEv fl.config false,
                Event.shutdownGoogleLogging],
      exitCode := -1, final := g }
  else
    let evs := [Event.substrateInitEv fl.config true]
    let g := { g with g_init_state.data_substrate_init := true }
    let (evs, g) :=
      if sqlModule then
        (evs ++ [Event.enableEngine TableEngine.EloqSql,
                 Event.spawnEloqSqlThread],
          { g with g_init_state.eloqsql_thread_started := true,
                   g_eloqsql_thread_joinable := true })
      else (evs, g)
    if kvModule then
      let g := { g with g_eloqkv_server := true, g_eloqkv_service := true }
      let evs := evs ++
        [Event.enableEngine TableEngine.EloqKv,
         Event.kvServiceCtor (effectiveKvConfig fl.config fl.eloqkv_config),
         Event.kvServiceInitEv o.kvInitOk]
      if !o.kvInitOk then finishRun kvModule sqlModule evs (-1) g
      else
        let g := { g with g_init_state.eloqkv_init := true,
                          g_init_state.eloqkv_service_ptr := true }
        afterEngineLaunch kvModule sqlModule evs g o
    else
      afterEngineLaunch kvModule sqlModule evs g o

/-- Discriminator: is this event a registration-barrier wait? -/
def isWaitEv : Event → Bool
  | Event.waitForEnginesRegistered _ _ => true
  | _ => false

/-- Discriminator: is this event an EloqKV service construction? -/
def isKvCtorEv : Event → Bool
  | Event.kvServiceCtor _ => true
  | _ => false

/-- A global state in which every startup stage has completed: substrate
initialized, EloqKV initialized with its tracked pointer set and both
unique_ptr owners live, EloqSQL thread started and joinable. -/
def gAllStarted : GlobalState :=
  { g_init_state := { data_substrate_init := true, eloqkv_init := true,
                      eloqsql_thread_started := true, eloqkv_service_ptr := true },
    g_eloqkv_service := true, g_eloqkv_server := true,
    g_eloqsql_thread_joinable := true, g_shutdown_requested := false }

set_option maxRecDepth 40000 in
/-- CleanupComponents leaves g_shutdown_requested untouched. -/
theorem cleanup_preserves_shutdown_flag :
    ∀ (kvM sqlM : Bool) (g : GlobalState),
      (CleanupComponents kvM sqlM g).2.g_shutdown_requested =
        g.g_shutdown_requested := by decide

/-- A SignalHandler invocation that finds g_shutdown_requested already
true loses the compare-and-exchange and returns immediately. -/
theorem signal_handler_lost_exchange (kvM sqlM : Bool) (sig : Int)
    (g : GlobalState) (h : g.g_shutdown_requested = true) :
    SignalHandler kvM sqlM sig g = ([], g) := by
  simp [SignalHandler, h]

set_option maxRecDepth 40000 in
/-- C1: Shutdown is idempotent: from every global state, running
CleanupComponents a second time immediately after a first run performs
no action at all (no substrate shutdown, no engine stop, no thread
join, no resource destruction) and leaves the state unchanged, because
each stage clears its InitState flag after running. -/
theorem cleanup_idempotent :
    ∀ (kvM sqlM : Bool) (g : GlobalState),
      CleanupComponents kvM sqlM (CleanupComponents kvM sqlM g).2 =
        ([], (CleanupComponents kvM sqlM g).2) := by decide

/-- C4: delivery of interrupt or terminate runs the Shutdown Controller
exactly once even if both signals arrive: the first SignalHandler call
wins the compare-and-exchange of g_shutdown_requested and performs the
teardown of CleanupComponents, and the second call loses the exchange
and returns immediately with no teardown. -/
theorem signal_handler_exactly_once (kvM sqlM : Bool) (sig1 sig2 : Int)
    (g : GlobalState) (h : g.g_shutdown_requested = false) :
    (SignalHandler kvM sqlM sig1 g).1 =
      (CleanupComponents kvM sqlM { g with g_shutdown_requested := true }).1 ∧
    SignalHandler kvM sqlM sig2 (SignalHandler kvM sqlM sig1 g).2 =
      ([], (SignalHandler kvM sqlM sig1 g).2) := by
  have hfst : SignalHandler kvM sqlM sig1 g =
      CleanupComponents kvM sqlM { g with g_shutdown_requested := true } := by
    simp [SignalHandler, h]
  refine ⟨by rw [hfst], ?_⟩
  have h2 : (SignalHandler kvM sqlM sig1 g).2.g_shutdown_requested = true := by
    rw [hfst, cleanup_preserves_shutdown_flag]
  exact signal_handler_lost_exchange kvM sqlM sig2 _ h2

/-- Witness for C4: two signal deliveries (SIGINT = 2, then SIGTERM = 15)
from the initial state. -/
theorem signal_handler_exactly_once_witness :
    (({} : GlobalState).g_shutdown_requested = false) ∧
    ((SignalHandler true true 2 ({} : GlobalState)).1 =
      (CleanupComponents true true
        { ({} : GlobalState) with g_shutdown_requested := true }).1 ∧
     SignalHandler true true 15 (SignalHandler true true 2 ({} : GlobalState)).2 =
      ([], (SignalHandler true true 2 ({} : GlobalState)).2)) :=
  ⟨rfl, signal_handler_exactly_once true true 2 15 {} rfl⟩

set_option maxRecDepth 40000 in
/-- The trace equation of CleanupComponents under the reachability
invariants (tracked pointer set when eloqkv_init, thread joinable when
started). -/
theorem cleanup_trace_eq :
    ∀ (kvM sqlM : Bool) (g : GlobalState),
      (g.g_init_state.eloqkv_init = true →
        g.g_init_state.eloqkv_service_ptr = true) →
      (g.g_init_state.eloqsql_thread_started = true →
        g.g_eloqsql_thread_joinable = true) →
      (CleanupComponents kvM sqlM g).1 =
        (if g.g_init_state.data_substrate_init then [Event.substrateShutdown]
         else []) ++
        ((if kvM && g.g_init_state.eloqkv_init then [Event.kvServiceStop]
          else []) ++
         (if kvM && g.g_eloqkv_service then [Event.destroyKvService] else []) ++
         (if kvM && g.g_eloqkv_server then [Event.destroyKvServer] else [])) ++
        (if sqlM && g.g_init_state.eloqsql_thread_started then
          [Event.shutdownMysqld, Event.joinEloqSqlThread]
         else []) := by decide

set_option maxRecDepth 40000 in
/-- Each teardown stage of CleanupComponents runs exactly when its
InitState flag is set, under the reachability invariants. -/
theorem cleanup_stage_gating :
    ∀ (kvM sqlM : Bool) (g : GlobalState),
      (g.g_init_state.eloqkv_init = true →
        g.g_init_state.eloqkv_service_ptr = true) →
      (g.g_init_state.eloqsql_thread_started = true →
        g.g_eloqsql_thread_joinable = true) →
      (Event.substrateShutdown ∈ (CleanupComponents kvM sqlM g).1 ↔
        g.g_init_state.data_substrate_init = true) ∧
      (kvM = true →
        (Event.kvServiceStop ∈ (CleanupComponents kvM sqlM g).1 ↔
          g.g_init_state.eloqkv_init = true)) ∧
      (sqlM = true →
        ((Event.shutdownMysqld ∈ (CleanupComponents kvM sqlM g).1 ∧
          Event.joinEloqSqlThread ∈ (CleanupComponents kvM sqlM g).1) ↔
          g.g_init_state.eloqsql_thread_started = true)) := by decide

/-- C5: for every state whose flags are consistent with reachability
(the tracked EloqKV pointer is set whenever eloqkv_init is, and the
EloqSQL thread is joinable whenever it was started), CleanupComponents
emits its stages in the fixed order substrate shutdown, key-value
engine stop, relational engine stop-and-join, and each teardown stage
runs if and only if its corresponding InitState flag is true on entry. -/
theorem cleanup_stage_order (kvM sqlM : Bool) (g : GlobalState)
    (h1 : g.g_init_state.eloqkv_init = true →
      g.g_init_state.eloqkv_service_ptr = true)
    (h2 : g.g_init_state.eloqsql_thread_started = true →
      g.g_eloqsql_thread_joinable = true) :
    (CleanupComponents kvM sqlM g).1 =
      (if g.g_init_state.data_substrate_init then [Event.substrateShutdown]
       else []) ++
      ((if kvM && g.g_init_state.eloqkv_init then [Event.kvServiceStop]
        else []) ++
       (if kvM && g.g_eloqkv_service then [Event.destroyKvService] else []) ++
       (if kvM && g.g_eloqkv_server then [Event.destroyKvServer] else [])) ++
      (if sqlM && g.g_init_state.eloqsql_thread_started then
        [Event.shutdownMysqld, Event.joinEloqSqlThread]
       else []) ∧
    (Event.substrateShutdown ∈ (CleanupComponents kvM sqlM g).1 ↔
      g.g_init_state.data_substrate_init = true) ∧
    (kvM = true →
      (Event.kvServiceStop ∈ (CleanupComponents kvM sqlM g).1 ↔
        g.g_init_state.eloqkv_init = true)) ∧
    (sqlM = true →
      ((Event.shutdownMysqld ∈ (CleanupComponents kvM sqlM g).1 ∧
        Event.joinEloqSqlThread ∈ (CleanupComponents kvM sqlM g).1) ↔
        g.g_init_state.eloqsql_thread_started = true)) :=
  ⟨cleanup_trace_eq kvM sqlM g h1 h2, cleanup_stage_gating kvM sqlM g h1 h2⟩

/-- Witness for C5: the fully-started state. -/
theorem cleanup_stage_order_witness :
    (gAllStarted.g_init_state.eloqkv_init = true →
      gAllStarted.g_init_state.eloqkv_service_ptr = true) ∧
    (gAllStarted.g_init_state.eloqsql_thread_started = true →
      gAllStarted.g_eloqsql_thread_joinable = true) ∧
    ((CleanupComponents true true gAllStarted).1 =
        (if gAllStarted.g_init_state.data_substrate_init then
          [Event.substrateShutdown] else []) ++
        ((if true && gAllStarted.g_init_state.eloqkv_init then
            [Event.kvServiceStop] else []) ++
         (if true && gAllStarted.g_eloqkv_service then [Event.destroyKvService]
          else []) ++
         (if true && gAllStarted.g_eloqkv_server then [Event.destroyKvServer]
          else [])) ++
        (if true && gAllStarted.g_init_state.eloqsql_thread_started then
          [Event.shutdownMysqld, Event.joinEloqSqlThread]
         else []) ∧
      (Event.substrateShutdown ∈ (CleanupComponents true true gAllStarted).1 ↔
        gAllStarted.g_init_state.data_substrate_init = true) ∧
      (true = true →
        (Event.kvServiceStop ∈ (CleanupComponents true true gAllStarted).1 ↔
          gAllStarted.g_init_state.eloqkv_init = true)) ∧
      (true = true →
        ((Event.shutdownMysqld ∈ (CleanupComponents true true gAllStarted).1 ∧
          Event.joinEloqSqlThread ∈ (CleanupComponents true true gAllStarted).1) ↔
          gAllStarted.g_init_state.eloqsql_thread_started = true))) :=
  ⟨fun _ => rfl, fun _ => rfl,
    cleanup_stage_order true true gAllStarted (fun _ => rfl) (fun _ => rfl)⟩

/-- C2 counterexample: when DataSubstrate Init fails (a step-2 failure),
main exits with -1 through the inline early return and never transfers
control to the shared cleanup label, so the claim that every failure in
steps 2 to 6 reaches the single shared cleanup path is false. -/
theorem startup_cleanup_path_counterexample :
    (mainRun true true { config := "cfg" }
        { substrateInitOk := false }).exitCode = -1 ∧
    Event.cleanupEntered ∉
      (mainRun true true { config := "cfg" }
        { substrateInitOk := false }).trace := by decide

/-- C2 (amended): every startup failure after a successful substrate
Init sets return_code = -1 and funnels through the single shared
cleanup label, whose entry occurs exactly in the runs where substrate
Init succeeded; the exit status is 0 on clean shutdown after fully
successful startup and -1 (non-zero) on any startup-phase failure,
including the substrate-Init failure that returns inline. -/
theorem startup_failure_policy (kvM sqlM : Bool) (fl : Flags) (o : Oracle) :
    (mainRun kvM sqlM fl o).exitCode =
      (if o.substrateInitOk && o.registeredOk && o.substrateStartOk &&
          (!kvM || (o.kvInitOk && o.kvSecondStartOk && o.brpcStartOk)) then 0
       else -1) ∧
    (Event.cleanupEntered ∈ (mainRun kvM sqlM fl o).trace ↔
      o.substrateInitOk = true) := by
  rcases o with ⟨i, k, w, st, s2, sv⟩
  cases kvM <;> cases sqlM <;> cases i <;> cases k <;> cases w <;> cases st <;>
    cases s2 <;> cases sv <;> exact ⟨rfl, of_decide_eq_true rfl⟩

/-- C3: in the fully successful converged run, the service is released
into the brpc server options (ownership leaves the coordinator), yet
the teardown afterwards still calls Stop on the tracked service
pointer: the trace shows the release strictly before the stop, and no
coordinator-owned destruction of the service (it no longer owns one).
This contradicts the stated ownership rule and the source comment at
the stop site. -/
theorem kv_stop_called_after_ownership_release :
    ((mainRun true true { config := "cfg" } {}).trace.filter
        (fun e => decide (e = Event.kvServiceRelease) ||
          decide (e = Event.kvServiceStop))) =
      [Event.kvServiceRelease, Event.kvServiceStop] ∧
    Event.destroyKvService ∉
      (mainRun true true { config := "cfg" } {}).trace := by decide

/-- C6: in every run in which the EloqSQL thread was spawned, the
teardown requests the engine's own shutdown routine (shutdown_mysqld)
and joins the thread before the run ends, on every startup-failure path
including the registration timeout. -/
theorem sql_thread_joined (kvM sqlM : Bool) (fl : Flags) (o : Oracle)
    (h : Event.spawnEloqSqlThread ∈ (mainRun kvM sqlM fl o).trace) :
    Event.shutdownMysqld ∈ (mainRun kvM sqlM fl o).trace ∧
    Event.joinEloqSqlThread ∈ (mainRun kvM sqlM fl o).trace := by
  rcases o with ⟨i, k, w, st, s2, sv⟩
  revert h
  cases kvM <;> cases sqlM <;> cases i <;> cases k <;> cases w <;> cases st <;>
    cases s2 <;> cases sv <;> exact of_decide_eq_true rfl

/-- Witness for C6: the registration-timeout path of the converged
build spawns the EloqSQL thread and still shuts it down and joins it. -/
theorem sql_thread_joined_witness :
    Event.spawnEloqSqlThread ∈
      (mainRun true true { config := "c" } { registeredOk := false }).trace ∧
    (Event.shutdownMysqld ∈
      (mainRun true true { config := "c" } { registeredOk := false }).trace ∧
     Event.joinEloqSqlThread ∈
      (mainRun true true { config := "c" } { registeredOk := false }).trace) :=
  ⟨by decide, sql_thread_joined true true { config := "c" }
    { registeredOk := false } (by decide)⟩

/-- C7: if DataSubstrate Init fails, the run exits with the non-zero
status -1, its whole trace is the failed init followed by the logging
shutdown, the final state is the untouched initial state, and no engine
is ever enabled, no EloqSQL thread spawned, no EloqKV service
constructed. -/
theorem substrate_init_failure_frame (kvM sqlM : Bool) (fl : Flags) (o : Oracle)
    (h : o.substrateInitOk = false) :
    (mainRun kvM sqlM fl o).trace =
      [Event.substrateInitEv fl.config false, Event.shutdownGoogleLogging] ∧
    (mainRun kvM sqlM fl o).exitCode = -1 ∧
    (mainRun kvM sqlM fl o).final = ({} : GlobalState) ∧
    (∀ k, Event.enableEngine k ∉ (mainRun kvM sqlM fl o).trace) ∧
    Event.spawnEloqSqlThread ∉ (mainRun kvM sqlM fl o).trace ∧
    (∀ c, Event.kvServiceCtor c ∉ (mainRun kvM sqlM fl o).trace) := by
  simp [mainRun, h]

/-- Witness for C7: a run of the converged build with failing substrate
Init. -/
theorem substrate_init_failure_frame_witness :
    (({ substrateInitOk := false } : Oracle).substrateInitOk = false) ∧
    ((mainRun true true { config := "c" } { substrateInitOk := false }).trace =
      [Event.substrateInitEv "c" false, Event.shutdownGoogleLogging] ∧
    (mainRun true true { config := "c" } { substrateInitOk := false }).exitCode
      = -1 ∧
    (mainRun true true { config := "c" } { substrateInitOk := false }).final
      = ({} : GlobalState) ∧
    (∀ k, Event.enableEngine k ∉
      (mainRun true true { config := "c" } { substrateInitOk := false }).trace) ∧
    Event.spawnEloqSqlThread ∉
      (mainRun true true { config := "c" } { substrateInitOk := false }).trace ∧
    (∀ c, Event.kvServiceCtor c ∉
      (mainRun true true { config := "c" } { substrateInitOk := false }).trace)) :=
  ⟨rfl, substrate_init_failure_frame true true { config := "c" }
    { substrateInitOk := false } rfl⟩

/-- C8: in a fully successful startup of a build with the EloqKV module
(the converged binary), the trace contains exactly one blocking
run-until-asked-to-quit step and exactly one entry into the shared
cleanup path, in that order, and the exit status is 0: control never
falls from successful startup into cleanup without the blocking step
that only a shutdown trigger ends. -/
theorem run_blocks_until_shutdown_trigger (sqlM : Bool) (fl : Flags)
    (o : Oracle) (h : o = {}) :
    ((mainRun true sqlM fl o).trace.filter
        (fun e => decide (e = Event.runUntilAskedToQuit) ||
          decide (e = Event.cleanupEntered))) =
      [Event.runUntilAskedToQuit, Event.cleanupEntered] ∧
    (mainRun true sqlM fl o).exitCode = 0 := by
  subst h
  cases sqlM <;> exact ⟨rfl, rfl⟩

/-- Witness for C8: the converged build with both modules, successful
startup. -/
theorem run_blocks_until_shutdown_trigger_witness :
    (({} : Oracle) = ({} : Oracle)) ∧
    (((mainRun true true { config := "c" } {}).trace.filter
        (fun e => decide (e = Event.runUntilAskedToQuit) ||
          decide (e = Event.cleanupEntered))) =
      [Event.runUntilAskedToQuit, Event.cleanupEntered] ∧
    (mainRun true true { config := "c" } {}).exitCode = 0) :=
  ⟨rfl, run_blocks_until_shutdown_trigger true { config := "c" } {} rfl⟩

/-- C9: in every run that constructs the EloqKV service, the
configuration path it is constructed with is the engine-specific
override when that override is non-empty and the primary configuration
path when the override is unset (empty). -/
theorem kv_config_fallback (sqlM : Bool) (fl : Flags) (o : Oracle)
    (h : o.substrateInitOk = true) :
    (mainRun true sqlM fl o).trace.filter isKvCtorEv =
      [Event.kvServiceCtor (effectiveKvConfig fl.config fl.eloqkv_config)] ∧
    (fl.eloqkv_config ≠ "" →
      effectiveKvConfig fl.config fl.eloqkv_config = fl.eloqkv_config) ∧
    (fl.eloqkv_config = "" →
      effectiveKvConfig fl.config fl.eloqkv_config = fl.config) := by
  refine ⟨?_, fun h1 => by simp [effectiveKvConfig, h1],
    fun h1 => by simp [effectiveKvConfig, h1]⟩
  rcases o with ⟨i, k, w, st, s2, sv⟩
  subst h
  cases sqlM <;> cases k <;> cases w <;> cases st <;> cases s2 <;> cases sv <;>
    rfl

/-- Witness for C9: primary path a, override b. -/
theorem kv_config_fallback_witness :
    (({} : Oracle).substrateInitOk = true) ∧
    ((mainRun true true { config := "a", eloqkv_config := "b" } {}).trace.filter
        isKvCtorEv =
      [Event.kvServiceCtor (effectiveKvConfig "a" "b")] ∧
    (("b" : String) ≠ "" → effectiveKvConfig "a" "b" = "b") ∧
    (("b" : String) = "" → effectiveKvConfig "a" "b" = "a")) :=
  ⟨rfl, kv_config_fallback true { config := "a", eloqkv_config := "b" } {} rfl⟩

/-- C10: whatever the command-line flags and collaborator outcomes, the
registration-barrier waits performed by a run of main are exactly one
wait with the fixed compile-time timeout of 600000 milliseconds when
the run reaches the barrier (substrate Init succeeded and, in a build
with the EloqKV module, the service first-phase Init succeeded), and
none otherwise; no flag or configuration value changes that timeout. -/
theorem registration_timeout_fixed (kvM sqlM : Bool) (fl : Flags)
    (o : Oracle) :
    (mainRun kvM sqlM fl o).trace.filter isWaitEv =
      (if o.substrateInitOk && (!kvM || o.kvInitOk) then
        [Event.waitForEnginesRegistered 600000 o.registeredOk]
       else []) := by
  rcases o with ⟨i, k, w, st, s2, sv⟩
  cases kvM <;> cases sqlM <;> cases i <;> cases k <;> cases w <;> cases st <;>
    cases s2 <;> cases sv <;> rfl

end EloqDB
